import Mathlib

/-
Shallow embedding of the tracking state machine of hkevin01/get-mouse-coords.

The repository ships two GUI variants of the same controller:
  * `Gui`   embeds src/src/mouse_tracker_gui.py    (class MouseCoordinateTracker)
  * `GuiV2` embeds src/src/mouse_tracker_gui_v2.py (class MouseCoordinateTracker,
            plus the module-level function get_mouse_position)

Widget construction, styling and layout are pure presentation and are not part
of the controller state; the observable controller state (coordinate fields,
tracking/highlight flags, timer activity and interval, overlay visibility and
position, button/status/label texts, clipboard contents, scheduled one-shot
status resets) is embedded as a record, and every event handler of the Python
class becomes a function on that record.  Outcomes of external OS calls
(cursor query, clipboard write) are passed in as `Except` parameters: `.ok`
for a normal return, `.error msg` for a raised exception.
-/

namespace MouseTracker

/-- Which mouse library was successfully imported (module constant MOUSE_LIB in
mouse_tracker_gui_v2.py).  `noLib` is the initial `None`; the import block calls
sys.exit(1) in that case, but `get_mouse_position` still has a branch for it. -/
inductive MouseLib where
  | pyautogui
  | pynput
  | noLib
  deriving Repr, DecidableEq

namespace Gui

/-- Observable state of MouseCoordinateTracker in src/src/mouse_tracker_gui.py.
`pendingResets` records the delays (ms) of QTimer.singleShot callbacks to
`reset_status` that have been scheduled and have not yet fired. -/
structure TrackerState where
  current_x : Int
  current_y : Int
  tracking_enabled : Bool
  highlight_enabled : Bool
  timerActive : Bool
  timerInterval : Nat
  overlayVisible : Bool
  overlay_x : Int
  overlay_y : Int
  highlight_size : Int
  startButtonText : String
  statusText : String
  xLabelText : String
  yLabelText : String
  clipboard : String
  pendingResets : List Nat
  deriving Repr, DecidableEq

/-- Status text set by start_tracking and by reset_status while tracking. -/
def trackingStatus : String := "🔴 Tracking mouse coordinates..."

/-- Status text set at construction and by reset_status while stopped. -/
def readyStatus : String := "Ready to track mouse coordinates"

/-- Status text set by stop_tracking. -/
def stoppedStatus : String := "⏹️ Tracking stopped - Ready to start again"

/-- State after __init__ / init_ui / setup_timer: coordinates (0, 0), tracking
and highlight off, timer created but not started with interval 50 ms, overlay
constructed hidden at geometry origin with highlight_size 50, labels "0". -/
def initState : TrackerState :=
  { current_x := 0
    current_y := 0
    tracking_enabled := false
    highlight_enabled := false
    timerActive := false
    timerInterval := 50
    overlayVisible := false
    overlay_x := 0
    overlay_y := 0
    highlight_size := 50
    startButtonText := "Start Tracking"
    statusText := readyStatus
    xLabelText := "0"
    yLabelText := "0"
    clipboard := ""
    pendingResets := [] }

/-- MouseCoordinateTracker.start_tracking (mouse_tracker_gui.py:420). -/
def start_tracking (s : TrackerState) : TrackerState :=
  { s with tracking_enabled := true
           timerActive := true
           startButtonText := "Stop Tracking"
           statusText := trackingStatus }

/-- MouseCoordinateTracker.stop_tracking (mouse_tracker_gui.py:440): clears the
flag, stops the timer, hides the overlay when highlight is enabled. -/
def stop_tracking (s : TrackerState) : TrackerState :=
  { s with tracking_enabled := false
           timerActive := false
           overlayVisible := if s.highlight_enabled then false else s.overlayVisible
           startButtonText := "Start Tracking"
           statusText := stoppedStatus }

/-- MouseCoordinateTracker.toggle_tracking (mouse_tracker_gui.py:413). -/
def toggle_tracking (s : TrackerState) : TrackerState :=
  if s.tracking_enabled then stop_tracking s else start_tracking s

/-- MouseCoordinateTracker.toggle_highlight (mouse_tracker_gui.py:463): sets the
flag; hides the overlay when unchecking, shows it when checking while tracking,
otherwise leaves its visibility alone. -/
def toggle_highlight (checked : Bool) (s : TrackerState) : TrackerState :=
  { s with highlight_enabled := checked
           overlayVisible :=
             if checked then (if s.tracking_enabled then true else s.overlayVisible)
             else false }

/-- MouseCoordinateTracker.update_highlight_size (mouse_tracker_gui.py:471),
via HighlightOverlay.set_highlight_size. -/
def update_highlight_size (size : Int) (s : TrackerState) : TrackerState :=
  { s with highlight_size := size }

/-- MouseCoordinateTracker.update_timer_interval (mouse_tracker_gui.py:475):
both branches of the `if self.timer.isActive()` call timer.setInterval. -/
def update_timer_interval (interval : Nat) (s : TrackerState) : TrackerState :=
  if s.timerActive then { s with timerInterval := interval }
  else { s with timerInterval := interval }

/-- MouseCoordinateTracker.update_coordinates (mouse_tracker_gui.py:482), one
timer tick.  `query` is the outcome of pyautogui.position(): on success the
coordinate fields and labels are updated and, when highlight is enabled, the
overlay is shown and recentered (HighlightOverlay.update_position moves it to
(x - highlight_size, y - highlight_size)); a raised exception is caught and
written to the status label, touching nothing else. -/
def update_coordinates (query : Except String (Int × Int)) (s : TrackerState) :
    TrackerState :=
  match query with
  | .ok (x, y) =>
      { s with current_x := x
               current_y := y
               xLabelText := toString x
               yLabelText := toString y
               overlayVisible := if s.highlight_enabled then true else s.overlayVisible
               overlay_x := if s.highlight_enabled then x - s.highlight_size else s.overlay_x
               overlay_y := if s.highlight_enabled then y - s.highlight_size else s.overlay_y }
  | .error msg => { s with statusText := "Error: " ++ msg }

/-- The f-string f"{self.current_x}, {self.current_y}" of copy_coordinates. -/
def coords_text (s : TrackerState) : String :=
  toString s.current_x ++ ", " ++ toString s.current_y

/-- MouseCoordinateTracker.copy_coordinates (mouse_tracker_gui.py:503): writes
the clipboard, shows the transient success message, and schedules
QTimer.singleShot(3000, self.reset_status). -/
def copy_coordinates (s : TrackerState) : TrackerState :=
  { s with clipboard := coords_text s
           statusText := "📋 Copied coordinates: " ++ coords_text s
           pendingResets := s.pendingResets ++ [3000] }

/-- MouseCoordinateTracker.reset_status (mouse_tracker_gui.py:522): reverts the
status label to the canonical message for the current tracking state. -/
def reset_status (s : TrackerState) : TrackerState :=
  { s with statusText := if s.tracking_enabled then trackingStatus else readyStatus }

/-- Iterated ToggleTracking button presses starting from a given state. -/
def applyToggles : Nat → TrackerState → TrackerState
  | 0, s => s
  | n + 1, s => toggle_tracking (applyToggles n s)

/-- States reachable from construction by the event handlers.  A timer tick
(`update_coordinates`) can only fire while the QTimer is active — Qt's timeout
signal is emitted only by a running timer — hence the guard on `tick`. -/
inductive Reachable : TrackerState → Prop where
  | init : Reachable initState
  | toggle {s : TrackerState} : Reachable s → Reachable (toggle_tracking s)
  | highlight {s : TrackerState} (b : Bool) :
      Reachable s → Reachable (toggle_highlight b s)
  | interval {s : TrackerState} (i : Nat) :
      Reachable s → Reachable (update_timer_interval i s)
  | size {s : TrackerState} (k : Int) :
      Reachable s → Reachable (update_highlight_size k s)
  | tick {s : TrackerState} (q : Except String (Int × Int)) :
      Reachable s → s.timerActive = true → Reachable (update_coordinates q s)
  | copy {s : TrackerState} : Reachable s → Reachable (copy_coordinates s)
  | reset {s : TrackerState} : Reachable s → Reachable (reset_status s)

end Gui

namespace GuiV2

/-- Module-level function get_mouse_position (mouse_tracker_gui_v2.py:37).
`primary` is the outcome of pyautogui.position(), `secondary` the outcome of
pynput's mouse.Controller().position; each is `.error msg` when the call
raises.  Under MOUSE_LIB = 'pyautogui' a raising primary falls back to the
secondary, and when both raise the function returns (0, 0); under
MOUSE_LIB = 'pynput' only the pynput query is tried; the final fallthrough
returns (0, 0). -/
def get_mouse_position (lib : MouseLib)
    (primary secondary : Except String (Int × Int)) : Int × Int :=
  match lib with
  | .pyautogui =>
      match primary with
      | .ok p => p
      | .error _ =>
          match secondary with
          | .ok p => p
          | .error _ => (0, 0)
  | .pynput =>
      match secondary with
      | .ok p => p
      | .error _ => (0, 0)
  | .noLib => (0, 0)

/-- Observable state of MouseCoordinateTracker in src/src/mouse_tracker_gui_v2.py.
Compared with the first variant it also records which mouse library was
imported and whether the overlay constructed successfully
(HighlightOverlay.is_working).  `pendingResets` models the same QTimer.singleShot
mechanism; no handler in this variant ever schedules one. -/
structure TrackerState where
  mouseLib : MouseLib
  current_x : Int
  current_y : Int
  tracking_enabled : Bool
  highlight_enabled : Bool
  overlay_is_working : Bool
  timerActive : Bool
  timerInterval : Nat
  overlayVisible : Bool
  overlay_x : Int
  overlay_y : Int
  highlight_size : Int
  startButtonText : String
  statusText : String
  xLabelText : String
  yLabelText : String
  clipboard : String
  pendingResets : List Nat
  deriving Repr, DecidableEq

/-- The string MOUSE_LIB holds in mouse_tracker_gui_v2.py. -/
def libName : MouseLib → String
  | .pyautogui => "pyautogui"
  | .pynput => "pynput"
  | .noLib => "None"

/-- Status text set by show_library_info right after construction
(mouse_tracker_gui_v2.py:143). -/
def libMsg (lib : MouseLib) (overlayWorking : Bool) : String :=
  "Using " ++ libName lib ++ " for mouse tracking" ++
    (if overlayWorking then "" else " (overlay disabled due to display issues)")

/-- State after __init__ / init_ui / setup_timer / show_library_info:
coordinates (0, 0), tracking and highlight off, timer created but not started
with interval 50 ms, overlay hidden with highlight_size 50, labels "0", status
showing which library is in use. -/
def initState (lib : MouseLib) (overlayWorking : Bool) : TrackerState :=
  { mouseLib := lib
    current_x := 0
    current_y := 0
    tracking_enabled := false
    highlight_enabled := false
    overlay_is_working := overlayWorking
    timerActive := false
    timerInterval := 50
    overlayVisible := false
    overlay_x := 0
    overlay_y := 0
    highlight_size := 50
    startButtonText := "Start Tracking"
    statusText := libMsg lib overlayWorking
    xLabelText := "0"
    yLabelText := "0"
    clipboard := ""
    pendingResets := [] }

/-- MouseCoordinateTracker.start_tracking (mouse_tracker_gui_v2.py:290). -/
def start_tracking (s : TrackerState) : TrackerState :=
  { s with tracking_enabled := true
           timerActive := true
           startButtonText := "Stop Tracking"
           statusText := "Tracking mouse coordinates..." }

/-- MouseCoordinateTracker.stop_tracking (mouse_tracker_gui_v2.py:298): hides
the overlay only when highlight is enabled and the overlay is working. -/
def stop_tracking (s : TrackerState) : TrackerState :=
  { s with tracking_enabled := false
           timerActive := false
           overlayVisible :=
             if s.highlight_enabled && s.overlay_is_working then false
             else s.overlayVisible
           startButtonText := "Start Tracking"
           statusText := "Tracking stopped" }

/-- MouseCoordinateTracker.toggle_tracking (mouse_tracker_gui_v2.py:283). -/
def toggle_tracking (s : TrackerState) : TrackerState :=
  if s.tracking_enabled then stop_tracking s else start_tracking s

/-- MouseCoordinateTracker.toggle_highlight (mouse_tracker_gui_v2.py:308):
returns immediately when the overlay is not working; otherwise as in the first
variant. -/
def toggle_highlight (checked : Bool) (s : TrackerState) : TrackerState :=
  if s.overlay_is_working = false then s
  else
    { s with highlight_enabled := checked
             overlayVisible :=
               if checked then (if s.tracking_enabled then true else s.overlayVisible)
               else false }

/-- MouseCoordinateTracker.update_highlight_size (mouse_tracker_gui_v2.py:318):
only applied when the overlay is working. -/
def update_highlight_size (size : Int) (s : TrackerState) : TrackerState :=
  if s.overlay_is_working then { s with highlight_size := size } else s

/-- MouseCoordinateTracker.update_timer_interval (mouse_tracker_gui_v2.py:323):
both branches of the `if self.timer.isActive()` call timer.setInterval. -/
def update_timer_interval (interval : Nat) (s : TrackerState) : TrackerState :=
  if s.timerActive then { s with timerInterval := interval }
  else { s with timerInterval := interval }

/-- MouseCoordinateTracker.update_coordinates (mouse_tracker_gui_v2.py:330),
one timer tick.  The position comes from `get_mouse_position`, which handles
all query failures internally and never raises, so the surrounding
try/except never reaches its handler on a failed query: the returned pair —
(0, 0) when every query failed — is displayed like a normal sample, and the
overlay is shown/recentered only when highlight is enabled and the overlay is
working (HighlightOverlay.update_position also checks is_working). -/
def update_coordinates (primary secondary : Except String (Int × Int))
    (s : TrackerState) : TrackerState :=
  match get_mouse_position s.mouseLib primary secondary with
  | (x, y) =>
      { s with current_x := x
               current_y := y
               xLabelText := toString x
               yLabelText := toString y
               overlayVisible :=
                 if s.highlight_enabled && s.overlay_is_working then true
                 else s.overlayVisible
               overlay_x :=
                 if s.highlight_enabled && s.overlay_is_working then x - s.highlight_size
                 else s.overlay_x
               overlay_y :=
                 if s.highlight_enabled && s.overlay_is_working then y - s.highlight_size
                 else s.overlay_y }

/-- The f-string f"{self.current_x}, {self.current_y}" of copy_coordinates. -/
def coords_text (s : TrackerState) : String :=
  toString s.current_x ++ ", " ++ toString s.current_y

/-- MouseCoordinateTracker.copy_coordinates (mouse_tracker_gui_v2.py:351):
`clipboardCall` is the outcome of QApplication.clipboard().setText; an
exception there is caught and reported.  Unlike the first variant, no
QTimer.singleShot reset of the status message is scheduled. -/
def copy_coordinates (clipboardCall : Except String Unit) (s : TrackerState) :
    TrackerState :=
  match clipboardCall with
  | .ok _ =>
      { s with clipboard := coords_text s
               statusText := "Copied coordinates: " ++ coords_text s }
  | .error e => { s with statusText := "Error copying: " ++ e }

end GuiV2

namespace TimerModel

/-- Modelled from the spec: the recurring timer abstraction the core depends on
(spec section 6: "a recurring timer abstraction with start/stop/interval-change";
section 5: the periodic sampler "may be reconfigured (interval change) at any
time, taking effect on the subsequent firing").  This is the contract of the
toolkit timer (QTimer) that update_timer_interval calls into; the toolkit
itself is an external collaborator, so its firing discipline is embedded here
from the spec's description.  `fireAt` is the absolute time (ms) of the next
timeout while `active`. -/
structure RecurringTimer where
  active : Bool
  interval : Nat
  fireAt : Nat
  deriving Repr, DecidableEq

/-- Starting the timer at time `now` schedules the next timeout a full
interval later. -/
def startAt (now : Nat) (t : RecurringTimer) : RecurringTimer :=
  { t with active := true, fireAt := now + t.interval }

/-- Stopping the timer cancels future timeouts. -/
def stopAt (t : RecurringTimer) : RecurringTimer :=
  { t with active := false }

/-- Changing the interval at time `now`: a running timer is rescheduled so the
next timeout happens a full new interval after the change; a stopped timer
just records the new interval for its next start. -/
def setIntervalAt (now newInterval : Nat) (t : RecurringTimer) : RecurringTimer :=
  if t.active then { t with interval := newInterval, fireAt := now + newInterval }
  else { t with interval := newInterval }

end TimerModel

namespace SavedList

/-- Mouse button of a global click event, as delivered by the global click
capability callback(x, y, button, pressed); the secondary button is `right`. -/
inductive MouseButton where
  | left
  | middle
  | right
  deriving Repr, DecidableEq

/-- Modelled from the spec: the saved-coordinates feature (SavedCoordinateList
and the background global-click listener) is described in spec sections 3, 4.2
and 8, but no variant under src/ implements it — neither GUI file has a saved
list or a pynput click listener.  The state is the list together with the
tracking flag the controller consults at the moment the event is delivered. -/
structure SavedState where
  tracking_enabled : Bool
  saved_list : List (Int × Int)
  deriving Repr, DecidableEq

/-- Modelled from the spec: handling of one GlobalClick event forwarded from
the background listener (spec section 4.2: a secondary-button press is appended
to SavedCoordinateList while Tracking and ignored while Stopped; section 8:
events arriving while Stopped are dropped, not queued). -/
def on_global_click (x y : Int) (button : MouseButton) (pressed : Bool)
    (s : SavedState) : SavedState :=
  match button, pressed with
  | .right, true =>
      if s.tracking_enabled then { s with saved_list := s.saved_list ++ [(x, y)] }
      else s
  | _, _ => s

/-- Modelled from the spec: ClearSaved empties the list unconditionally
(spec section 4.2). -/
def clear_saved (s : SavedState) : SavedState :=
  { s with saved_list := [] }

end SavedList

namespace Gui

/-- Inductive invariant of the controller: the timer runs exactly while
tracking, and the overlay is visible only when highlight and tracking are both
on. -/
theorem reachable_inv {s : TrackerState} (h : Reachable s) :
    s.timerActive = s.tracking_enabled ∧
      (s.overlayVisible = true → s.highlight_enabled = true ∧ s.tracking_enabled = true) := by
  induction h with
  | init => simp [initState]
  | @toggle s h ih =>
      obtain ⟨cx, cy, tr, hl, ta, ti, ov, ox, oy, hs, bt, st, xl, yl, cb, pr⟩ := s
      cases tr <;> cases hl <;> cases ta <;> cases ov <;>
        simp_all [toggle_tracking, stop_tracking, start_tracking]
  | @highlight s b h ih =>
      obtain ⟨cx, cy, tr, hl, ta, ti, ov, ox, oy, hs, bt, st, xl, yl, cb, pr⟩ := s
      cases b <;> cases tr <;> cases hl <;> cases ta <;> cases ov <;>
        simp_all [toggle_highlight]
  | @interval s i h ih =>
      obtain ⟨cx, cy, tr, hl, ta, ti, ov, ox, oy, hs, bt, st, xl, yl, cb, pr⟩ := s
      cases tr <;> cases hl <;> cases ta <;> cases ov <;>
        simp_all [update_timer_interval]
  | @size s k h ih =>
      obtain ⟨cx, cy, tr, hl, ta, ti, ov, ox, oy, hs, bt, st, xl, yl, cb, pr⟩ := s
      cases tr <;> cases hl <;> cases ta <;> cases ov <;>
        simp_all [update_highlight_size]
  | @tick s q h hact ih =>
      obtain ⟨cx, cy, tr, hl, ta, ti, ov, ox, oy, hs, bt, st, xl, yl, cb, pr⟩ := s
      cases q with
      | ok p =>
          obtain ⟨x, y⟩ := p
          cases tr <;> cases hl <;> cases ta <;> cases ov <;>
            simp_all [update_coordinates]
      | error msg =>
          cases tr <;> cases hl <;> cases ta <;> cases ov <;>
            simp_all [update_coordinates]
  | @copy s h ih =>
      obtain ⟨cx, cy, tr, hl, ta, ti, ov, ox, oy, hs, bt, st, xl, yl, cb, pr⟩ := s
      cases tr <;> cases hl <;> cases ta <;> cases ov <;>
        simp_all [copy_coordinates]
  | @reset s h ih =>
      obtain ⟨cx, cy, tr, hl, ta, ti, ov, ox, oy, hs, bt, st, xl, yl, cb, pr⟩ := s
      cases tr <;> cases hl <;> cases ta <;> cases ov <;>
        simp_all [reset_status]

/-- ToggleTracking always flips the tracking flag (first variant). -/
theorem toggle_tracking_flips (s : TrackerState) :
    (toggle_tracking s).tracking_enabled = !s.tracking_enabled := by
  by_cases ht : s.tracking_enabled <;>
    simp [toggle_tracking, ht, stop_tracking, start_tracking]

end Gui

namespace GuiV2

/-- ToggleTracking always flips the tracking flag (second variant). -/
theorem toggle_tracking_flips_v2 (s : TrackerState) :
    (toggle_tracking s).tracking_enabled = !s.tracking_enabled := by
  by_cases ht : s.tracking_enabled <;>
    simp [toggle_tracking, ht, stop_tracking, start_tracking]

end GuiV2

/-- Claim C1: starting from the initial state (Stopped), the tracking flag
alternates strictly Stopped, Tracking, Stopped, ... under ToggleTracking
presses — after n presses it is on exactly when n is odd — because each press
flips it; and no other event handler of either variant changes it. -/
theorem claim_C1_tracking_alternates :
    Gui.initState.tracking_enabled = false ∧
    (∀ n : Nat, (Gui.applyToggles n Gui.initState).tracking_enabled = decide (n % 2 = 1)) ∧
    (∀ s, (Gui.toggle_tracking s).tracking_enabled = !s.tracking_enabled) ∧
    (∀ s, (GuiV2.toggle_tracking s).tracking_enabled = !s.tracking_enabled) ∧
    (∀ b s, (Gui.toggle_highlight b s).tracking_enabled = s.tracking_enabled) ∧
    (∀ i s, (Gui.update_timer_interval i s).tracking_enabled = s.tracking_enabled) ∧
    (∀ k s, (Gui.update_highlight_size k s).tracking_enabled = s.tracking_enabled) ∧
    (∀ q s, (Gui.update_coordinates q s).tracking_enabled = s.tracking_enabled) ∧
    (∀ s, (Gui.copy_coordinates s).tracking_enabled = s.tracking_enabled) ∧
    (∀ s, (Gui.reset_status s).tracking_enabled = s.tracking_enabled) ∧
    (∀ b s, (GuiV2.toggle_highlight b s).tracking_enabled = s.tracking_enabled) ∧
    (∀ i s, (GuiV2.update_timer_interval i s).tracking_enabled = s.tracking_enabled) ∧
    (∀ k s, (GuiV2.update_highlight_size k s).tracking_enabled = s.tracking_enabled) ∧
    (∀ p q s, (GuiV2.update_coordinates p q s).tracking_enabled = s.tracking_enabled) ∧
    (∀ c s, (GuiV2.copy_coordinates c s).tracking_enabled = s.tracking_enabled) := by
  refine ⟨rfl, ?_, Gui.toggle_tracking_flips, GuiV2.toggle_tracking_flips_v2,
      ?_, ?_, ?_, ?_, ?_, ?_, ?_, ?_, ?_, ?_, ?_⟩
  · intro n
    induction n with
    | zero => simp [Gui.applyToggles, Gui.initState]
    | succ n ih =>
        rw [Gui.applyToggles, Gui.toggle_tracking_flips, ih]
        rcases Nat.mod_two_eq_zero_or_one n with h | h <;>
          simp [Nat.add_mod, h]
  · intro b s
    simp [Gui.toggle_highlight]
  · intro i s
    by_cases ha : s.timerActive <;> simp [Gui.update_timer_interval, ha]
  · intro k s
    simp [Gui.update_highlight_size]
  · intro q s
    rcases q with msg | p
    · simp [Gui.update_coordinates]
    · obtain ⟨x, y⟩ := p
      simp [Gui.update_coordinates]
  · intro s
    simp [Gui.copy_coordinates]
  · intro s
    simp [Gui.reset_status]
  · intro b s
    by_cases hw : s.overlay_is_working <;> simp [GuiV2.toggle_highlight, hw]
  · intro i s
    by_cases ha : s.timerActive <;> simp [GuiV2.update_timer_interval, ha]
  · intro k s
    by_cases hw : s.overlay_is_working <;> simp [GuiV2.update_highlight_size, hw]
  · intro p q s
    simp [GuiV2.update_coordinates]
  · intro c s
    rcases c with e | u <;> simp [GuiV2.copy_coordinates]

/-- Claim C7 counterexample: the claim also cites the tick handler of
mouse_tracker_gui_v2.py, but there a raising position query is swallowed
inside get_mouse_position, so the tick's except branch is unreachable and the
error is never surfaced as a status message — concretely, under MOUSE_LIB =
pynput with the pynput query raising, a tick right after start_tracking
leaves the status label at the canonical "Tracking mouse coordinates..." text
and just displays "0"/"0". -/
theorem claim_C7_counterexample :
    (GuiV2.update_coordinates (Except.error "pynput query failed")
        (Except.error "pynput query failed")
        (GuiV2.start_tracking (GuiV2.initState MouseLib.pynput true))).statusText =
      "Tracking mouse coordinates..." ∧
    (GuiV2.update_coordinates (Except.error "pynput query failed")
        (Except.error "pynput query failed")
        (GuiV2.start_tracking (GuiV2.initState MouseLib.pynput true))).xLabelText = "0" ∧
    (GuiV2.update_coordinates (Except.error "pynput query failed")
        (Except.error "pynput query failed")
        (GuiV2.start_tracking (GuiV2.initState MouseLib.pynput true))).yLabelText = "0" := by
  exact ⟨rfl, rfl, rfl⟩

/-- Claim C7 (amended): in mouse_tracker_gui.py a sampling tick whose position
query raises is caught inside the tick handler: the whole effect is writing
the error to the status label, so the tracking flag, the timer and every other
field are unchanged and the next tick will sample again.  In
mouse_tracker_gui_v2.py a raising query is swallowed inside get_mouse_position
and never surfaced as a status message: a tick never changes the status text —
though there too the timer and the tracking flag are untouched and tracking
keeps attempting on the next tick. -/
theorem claim_C7_tick_error_caught :
    (∀ msg s, Gui.update_coordinates (Except.error msg) s =
        { s with statusText := "Error: " ++ msg }) ∧
    (∀ msg s, (Gui.update_coordinates (Except.error msg) s).tracking_enabled =
        s.tracking_enabled) ∧
    (∀ msg s, (Gui.update_coordinates (Except.error msg) s).timerActive = s.timerActive) ∧
    (∀ msg s, (Gui.update_coordinates (Except.error msg) s).statusText = "Error: " ++ msg) ∧
    (∀ p q s, (GuiV2.update_coordinates p q s).statusText = s.statusText) ∧
    (∀ p q s, (GuiV2.update_coordinates p q s).tracking_enabled = s.tracking_enabled) ∧
    (∀ p q s, (GuiV2.update_coordinates p q s).timerActive = s.timerActive) := by
  refine ⟨fun msg s => rfl, fun msg s => rfl, fun msg s => rfl, fun msg s => rfl,
      ?_, ?_, ?_⟩ <;>
    intro p q s <;> simp [GuiV2.update_coordinates]

/-- Claim C9: CopyCurrent writes exactly "x, y" — decimal rendering of x, a
comma, one space, decimal rendering of y — of the last sampled position to the
clipboard, in both variants; with current position (5, 5) the clipboard holds
exactly "5, 5". -/
theorem claim_C9_copy_format :
    (∀ s, (Gui.copy_coordinates s).clipboard =
        toString s.current_x ++ ", " ++ toString s.current_y) ∧
    (∀ s, (GuiV2.copy_coordinates (Except.ok ()) s).clipboard =
        toString s.current_x ++ ", " ++ toString s.current_y) ∧
    (Gui.copy_coordinates
        { Gui.initState with current_x := 5, current_y := 5 }).clipboard = "5, 5" ∧
    (GuiV2.copy_coordinates (Except.ok ())
        { GuiV2.initState MouseLib.pyautogui true with
            current_x := 5, current_y := 5 }).clipboard = "5, 5" := by
  refine ⟨fun s => rfl, fun s => rfl, ?_, ?_⟩ <;> rfl

/-- Claim C10: the last-sampled position is initialized to (0, 0) at
construction in both variants, no handler other than a sampling tick changes
it, and so CopyCurrent invoked before any tick has run writes exactly "0, 0"
to the clipboard. -/
theorem claim_C10_copy_before_first_tick :
    Gui.initState.current_x = 0 ∧ Gui.initState.current_y = 0 ∧
    (Gui.copy_coordinates Gui.initState).clipboard = "0, 0" ∧
    (∀ s, (Gui.toggle_tracking s).current_x = s.current_x ∧
        (Gui.toggle_tracking s).current_y = s.current_y) ∧
    (∀ b s, (Gui.toggle_highlight b s).current_x = s.current_x ∧
        (Gui.toggle_highlight b s).current_y = s.current_y) ∧
    (∀ i s, (Gui.update_timer_interval i s).current_x = s.current_x ∧
        (Gui.update_timer_interval i s).current_y = s.current_y) ∧
    (∀ s, (Gui.copy_coordinates s).current_x = s.current_x ∧
        (Gui.copy_coordinates s).current_y = s.current_y) ∧
    (∀ s, (Gui.reset_status s).current_x = s.current_x ∧
        (Gui.reset_status s).current_y = s.current_y) ∧
    (∀ lib w, (GuiV2.initState lib w).current_x = 0 ∧
        (GuiV2.initState lib w).current_y = 0) ∧
    (∀ lib w, (GuiV2.copy_coordinates (Except.ok ())
        (GuiV2.initState lib w)).clipboard = "0, 0") := by
  refine ⟨rfl, rfl, rfl, ?_, ?_, ?_, ?_, ?_, ?_, ?_⟩
  · intro s
    by_cases ht : s.tracking_enabled <;>
      simp [Gui.toggle_tracking, ht, Gui.stop_tracking, Gui.start_tracking]
  · intro b s
    simp [Gui.toggle_highlight]
  · intro i s
    by_cases ha : s.timerActive <;> simp [Gui.update_timer_interval, ha]
  · intro s
    simp [Gui.copy_coordinates]
  · intro s
    simp [Gui.reset_status]
  · intro lib w
    exact ⟨rfl, rfl⟩
  · intro lib w
    rfl

/-- Claim C2 counterexample: the claim says a double sampler failure "is
reported via status", but when both cursor queries raise, get_mouse_position
silently returns (0, 0) and update_coordinates displays it like a normal
sample — concretely, ticking right after start_tracking under MOUSE_LIB =
pyautogui with both queries raising leaves the status label at the canonical
"Tracking mouse coordinates..." text and shows "0"/"0", with no failure
report anywhere. -/
theorem claim_C2_counterexample :
    (GuiV2.update_coordinates (Except.error "query failed") (Except.error "query failed")
        (GuiV2.start_tracking (GuiV2.initState MouseLib.pyautogui true))).statusText =
      "Tracking mouse coordinates..." ∧
    (GuiV2.update_coordinates (Except.error "query failed") (Except.error "query failed")
        (GuiV2.start_tracking (GuiV2.initState MouseLib.pyautogui true))).xLabelText = "0" ∧
    (GuiV2.update_coordinates (Except.error "query failed") (Except.error "query failed")
        (GuiV2.start_tracking (GuiV2.initState MouseLib.pyautogui true))).yLabelText = "0" := by
  exact ⟨rfl, rfl, rfl⟩

/-- Claim C2 (amended): get_mouse_position first returns the primary
pyautogui query's result; when the primary raises it returns the secondary
pynput result; when both raise it returns the default (0, 0).  It is a total
function, so no exception propagates and the process keeps running — but the
failure is silent: a tick never changes the status text, and a double failure
just displays position (0, 0). -/
theorem claim_C2_sampler_fallback :
    (∀ p secondary, GuiV2.get_mouse_position MouseLib.pyautogui (Except.ok p) secondary = p) ∧
    (∀ e p, GuiV2.get_mouse_position MouseLib.pyautogui (Except.error e) (Except.ok p) = p) ∧
    (∀ e1 e2, GuiV2.get_mouse_position MouseLib.pyautogui
        (Except.error e1) (Except.error e2) = (0, 0)) ∧
    (∀ p q s, (GuiV2.update_coordinates p q s).statusText = s.statusText) ∧
    (∀ p q s, (GuiV2.update_coordinates p q s).tracking_enabled = s.tracking_enabled) ∧
    (∀ p q s, (GuiV2.update_coordinates p q s).timerActive = s.timerActive) ∧
    (∀ e1 e2 s, s.mouseLib = MouseLib.pyautogui →
        (GuiV2.update_coordinates (Except.error e1) (Except.error e2) s).current_x = 0 ∧
        (GuiV2.update_coordinates (Except.error e1) (Except.error e2) s).current_y = 0) := by
  refine ⟨fun p secondary => rfl, fun e p => rfl, fun e1 e2 => rfl, ?_, ?_, ?_, ?_⟩
  · intro p q s
    simp [GuiV2.update_coordinates]
  · intro p q s
    simp [GuiV2.update_coordinates]
  · intro p q s
    simp [GuiV2.update_coordinates]
  · intro e1 e2 s hlib
    simp [GuiV2.update_coordinates, GuiV2.get_mouse_position, hlib]

/-- Claim C2 witness: instantiating the amended sampler theorem at the
concrete post-start state with two failing queries. -/
theorem claim_C2_sampler_fallback_witness :
    (GuiV2.update_coordinates (Except.error "e1") (Except.error "e2")
        (GuiV2.start_tracking (GuiV2.initState MouseLib.pyautogui true))).current_x = 0 ∧
    (GuiV2.update_coordinates (Except.error "e1") (Except.error "e2")
        (GuiV2.start_tracking (GuiV2.initState MouseLib.pyautogui true))).current_y = 0 :=
  claim_C2_sampler_fallback.2.2.2.2.2.2 "e1" "e2"
    (GuiV2.start_tracking (GuiV2.initState MouseLib.pyautogui true)) rfl

/-- Claim C3: a secondary-button press delivered by the background listener is
appended to SavedCoordinateList exactly when the tracking flag is on at that
moment; while Stopped the whole state is unchanged — the event is dropped, not
queued. -/
theorem claim_C3_global_click_iff :
    (∀ x y s, s.tracking_enabled = true →
        SavedList.on_global_click x y SavedList.MouseButton.right true s =
          { s with saved_list := s.saved_list ++ [(x, y)] }) ∧
    (∀ x y s, s.tracking_enabled = false →
        SavedList.on_global_click x y SavedList.MouseButton.right true s = s) ∧
    (∀ x y s, (SavedList.on_global_click x y SavedList.MouseButton.right true s).saved_list ≠
        s.saved_list ↔ s.tracking_enabled = true) := by
  refine ⟨?_, ?_, ?_⟩
  · intro x y s ht
    simp [SavedList.on_global_click, ht]
  · intro x y s ht
    simp [SavedList.on_global_click, ht]
  · intro x y s
    by_cases ht : s.tracking_enabled <;> simp [SavedList.on_global_click, ht]

/-- Claim C3 witness: a right-click press at (1, 2) while Tracking is appended;
one at (3, 4) while Stopped leaves the state untouched. -/
theorem claim_C3_global_click_iff_witness :
    SavedList.on_global_click 1 2 SavedList.MouseButton.right true
      { tracking_enabled := true, saved_list := [] } =
      { tracking_enabled := true, saved_list := [(1, 2)] } ∧
    SavedList.on_global_click 3 4 SavedList.MouseButton.right true
      { tracking_enabled := false, saved_list := [] } =
      { tracking_enabled := false, saved_list := [] } :=
  ⟨claim_C3_global_click_iff.1 1 2 { tracking_enabled := true, saved_list := [] } rfl,
   claim_C3_global_click_iff.2.1 3 4 { tracking_enabled := false, saved_list := [] } rfl⟩

/-- Claim C4 counterexample: the claim promises every transient status reverts
after 3000 ms, citing copy_coordinates of both variants, but the
mouse_tracker_gui_v2.py copy handler schedules no delayed reset at all: after
copying, the pending one-shot list is still empty and the copied message just
stays (the Python file contains no QTimer.singleShot and no reset_status). -/
theorem claim_C4_counterexample :
    (GuiV2.copy_coordinates (Except.ok ())
        (GuiV2.start_tracking (GuiV2.initState MouseLib.pyautogui true))).pendingResets =
      [] ∧
    (GuiV2.copy_coordinates (Except.ok ())
        (GuiV2.start_tracking (GuiV2.initState MouseLib.pyautogui true))).statusText =
      "Copied coordinates: 0, 0" := by
  exact ⟨rfl, rfl⟩

/-- Claim C4 (amended): in mouse_tracker_gui.py, copy_coordinates schedules a
3000 ms one-shot reset_status, which when it fires reverts the status label to
the canonical message for the then-current tracking state ("tracking" text
while tracking, "ready" text while stopped); in mouse_tracker_gui_v2.py no
reset is ever scheduled, so the copied message persists until another event
overwrites it. -/
theorem claim_C4_status_expiry :
    (∀ s, (Gui.copy_coordinates s).pendingResets = s.pendingResets ++ [3000]) ∧
    (∀ s, (Gui.reset_status (Gui.copy_coordinates s)).statusText =
        if s.tracking_enabled then Gui.trackingStatus else Gui.readyStatus) ∧
    (∀ s, (Gui.copy_coordinates s).tracking_enabled = s.tracking_enabled) ∧
    (∀ s, (Gui.reset_status s).statusText =
        if s.tracking_enabled then Gui.trackingStatus else Gui.readyStatus) ∧
    (∀ c s, (GuiV2.copy_coordinates c s).pendingResets = s.pendingResets) := by
  refine ⟨fun s => rfl, fun s => rfl, fun s => rfl, fun s => rfl, ?_⟩
  intro c s
  rcases c with e | u <;> rfl

/-- Claim C5: ChangeInterval calls timer.setInterval in both branches of the
isActive test, in both variants, so the stored cadence becomes the new value
whatever the tracking state; and under the recurring-timer contract the next
timeout after an interval change on a running timer comes a full new interval
later, while on a stopped timer the new interval governs the next start. -/
theorem claim_C5_interval_change :
    (∀ i s, Gui.update_timer_interval i s = { s with timerInterval := i }) ∧
    (∀ i s, GuiV2.update_timer_interval i s = { s with timerInterval := i }) ∧
    (∀ now i t, (TimerModel.setIntervalAt now i t).interval = i) ∧
    (∀ now i t, t.active = true → (TimerModel.setIntervalAt now i t).fireAt = now + i) ∧
    (∀ now later i t, t.active = false →
        (TimerModel.startAt later (TimerModel.setIntervalAt now i t)).fireAt = later + i) := by
  refine ⟨?_, ?_, ?_, ?_, ?_⟩
  · intro i s
    by_cases ha : s.timerActive <;> simp [Gui.update_timer_interval, ha]
  · intro i s
    by_cases ha : s.timerActive <;> simp [GuiV2.update_timer_interval, ha]
  · intro now i t
    by_cases ha : t.active <;> simp [TimerModel.setIntervalAt, ha]
  · intro now i t ha
    simp [TimerModel.setIntervalAt, ha]
  · intro now later i t ha
    simp [TimerModel.setIntervalAt, ha, TimerModel.startAt]

/-- Claim C5 witness: changing a running timer from 50 ms to 200 ms at time
1000 reschedules the next timeout to 1200, and the same change on a stopped
timer makes a start at time 2000 fire at 2200. -/
theorem claim_C5_interval_change_witness :
    (TimerModel.setIntervalAt 1000 200
      { active := true, interval := 50, fireAt := 1050 }).fireAt = 1200 ∧
    (TimerModel.startAt 2000 (TimerModel.setIntervalAt 1000 200
      { active := false, interval := 50, fireAt := 0 })).fireAt = 2200 :=
  ⟨claim_C5_interval_change.2.2.2.1 1000 200
      { active := true, interval := 50, fireAt := 1050 } rfl,
   claim_C5_interval_change.2.2.2.2 1000 2000 200
      { active := false, interval := 50, fireAt := 0 } rfl⟩

/-- Claim C6: in every reachable state of mouse_tracker_gui.py the overlay is
visible only when highlight and tracking are both on; unchecking the highlight
hides it immediately in any state; checking it while tracking shows it;
checking it while stopped leaves it hidden; and stopping tracking always
leaves it hidden. -/
theorem claim_C6_highlight_visibility :
    (∀ s, Gui.Reachable s → s.overlayVisible = true →
        s.highlight_enabled = true ∧ s.tracking_enabled = true) ∧
    (∀ s, (Gui.toggle_highlight false s).overlayVisible = false) ∧
    (∀ s, s.tracking_enabled = true →
        (Gui.toggle_highlight true s).overlayVisible = true) ∧
    (∀ s, Gui.Reachable s → s.tracking_enabled = false →
        (Gui.toggle_highlight true s).overlayVisible = false) ∧
    (∀ s, Gui.Reachable s → (Gui.stop_tracking s).overlayVisible = false) := by
  refine ⟨?_, ?_, ?_, ?_, ?_⟩
  · intro s hr hv
    exact (Gui.reachable_inv hr).2 hv
  · intro s
    simp [Gui.toggle_highlight]
  · intro s ht
    simp [Gui.toggle_highlight, ht]
  · intro s hr ht
    have hinv := (Gui.reachable_inv hr).2
    have hov : s.overlayVisible = false := by
      by_cases h : s.overlayVisible
      · exact absurd (hinv h).2 (by simp [ht])
      · simpa using h
    simp [Gui.toggle_highlight, ht, hov]
  · intro s hr
    have hinv := (Gui.reachable_inv hr).2
    by_cases hh : s.highlight_enabled
    · simp [Gui.stop_tracking, hh]
    · have hov : s.overlayVisible = false := by
        by_cases h : s.overlayVisible
        · exact absurd (hinv h).1 hh
        · simpa using h
      simp [Gui.stop_tracking, hh, hov]

/-- Claim C6 witness: checking highlight right after starting tracking shows
the overlay and that state satisfies the visibility invariant; checking it in
the initial stopped state leaves it hidden; stopping from the tracking state
leaves it hidden. -/
theorem claim_C6_highlight_visibility_witness :
    (Gui.toggle_highlight true (Gui.toggle_tracking Gui.initState)).overlayVisible = true ∧
    (Gui.toggle_highlight true Gui.initState).overlayVisible = false ∧
    (Gui.stop_tracking (Gui.toggle_tracking Gui.initState)).overlayVisible = false ∧
    (Gui.toggle_highlight true
        (Gui.toggle_tracking Gui.initState)).highlight_enabled = true ∧
    (Gui.toggle_highlight true
        (Gui.toggle_tracking Gui.initState)).tracking_enabled = true :=
  ⟨claim_C6_highlight_visibility.2.2.1 (Gui.toggle_tracking Gui.initState) rfl,
   claim_C6_highlight_visibility.2.2.2.1 Gui.initState Gui.Reachable.init rfl,
   claim_C6_highlight_visibility.2.2.2.2 (Gui.toggle_tracking Gui.initState)
     (Gui.Reachable.toggle Gui.Reachable.init),
   claim_C6_highlight_visibility.1
     (Gui.toggle_highlight true (Gui.toggle_tracking Gui.initState))
     (Gui.Reachable.highlight true (Gui.Reachable.toggle Gui.Reachable.init)) rfl⟩

/-- Claim C8: in every reachable state of mouse_tracker_gui.py the timer is
active exactly when tracking is on — start_tracking/stop_tracking of both
variants set and clear them together — so in a Stopped state the timer is
inactive and a tick (which only a running timer emits, the guard of
Reachable.tick) cannot fire, hence cannot mutate any state. -/
theorem claim_C8_timer_iff_tracking :
    (∀ s, Gui.Reachable s → s.timerActive = s.tracking_enabled) ∧
    (∀ s, Gui.Reachable s → s.tracking_enabled = false → s.timerActive = false) ∧
    (∀ s, (Gui.start_tracking s).timerActive = true ∧
        (Gui.start_tracking s).tracking_enabled = true) ∧
    (∀ s, (Gui.stop_tracking s).timerActive = false ∧
        (Gui.stop_tracking s).tracking_enabled = false) ∧
    (∀ s, (GuiV2.start_tracking s).timerActive = true ∧
        (GuiV2.start_tracking s).tracking_enabled = true) ∧
    (∀ s, (GuiV2.stop_tracking s).timerActive = false ∧
        (GuiV2.stop_tracking s).tracking_enabled = false) := by
  refine ⟨?_, ?_, ?_, ?_, ?_, ?_⟩
  · intro s hr
    exact (Gui.reachable_inv hr).1
  · intro s hr ht
    rw [(Gui.reachable_inv hr).1, ht]
  · intro s
    exact ⟨rfl, rfl⟩
  · intro s
    exact ⟨rfl, rfl⟩
  · intro s
    exact ⟨rfl, rfl⟩
  · intro s
    exact ⟨rfl, rfl⟩

/-- Claim C8 witness: the freshly constructed state and the state after a
start/stop toggle pair both have an inactive timer while stopped. -/
theorem claim_C8_timer_iff_tracking_witness :
    Gui.initState.timerActive = Gui.initState.tracking_enabled ∧
    (Gui.toggle_tracking (Gui.toggle_tracking Gui.initState)).timerActive = false :=
  ⟨claim_C8_timer_iff_tracking.1 Gui.initState Gui.Reachable.init,
   claim_C8_timer_iff_tracking.2.1
     (Gui.toggle_tracking (Gui.toggle_tracking Gui.initState))
     (Gui.Reachable.toggle (Gui.Reachable.toggle Gui.Reachable.init)) rfl⟩

end MouseTracker
